import Mathlib

/-!
# Interrupt playback engine (`src/nautilus/intersched.c`)

A shallow embedding of the interrupt playback test of the Nautilus kernel.

* The file-scope globals (`first_interrupt_vector`, `irq_to_real_vectors`,
  `interrupt_state`, `interrupt_counter`) form the record `State`.
  A pointer global is an `Option`: `none` is the null pointer the static
  initialiser leaves, `some _` is an allocated object.  `malloc` is taken to
  succeed.
* The kernel services the file calls but does not define
  (`idt_find_and_reserve_range`, `idt_assign_entry`, `nk_sched_get_realtime`,
  the content of fresh heap memory) are fields of the record `Env`.
* Every externally visible action (calls into the kernel, table accesses,
  console output) is logged, in program order, as an `Effect`.
* Machine integers are naturals or integers reduced explicitly:
  `uint8_t` modulo `2^8`, `uint64_t` modulo `2^64`, `long int` as the
  two's-complement reading of 64 bits.  The `int` return codes are integers;
  `!(ret_val + 1)` is the test `ret_val + 1 = 0`.
* `irq_to_real_vectors` is byte memory at its base address: a store at any
  offset is kept and read back.  The block was allocated with
  `NUMBER_OF_DIFFERENT_IRQS` bytes; the offsets used appear in the effect
  log (`map_write`, `map_read`).
* The busy-wait loop is given fuel: `spin` returns `none` when the fuel runs
  out before the loop condition turns false.
* The handler runs on the target processor, asynchronously to the player.
  Its only write is `interrupt_counter++`; the number of invocations that
  take place before the final print is the argument `arrivals` of
  `handle_intersched`.
-/

namespace Intersched

/-! ## Configuration macros -/

/-- Macro `TRACE_LENGTH`, defined as 2. -/
def TRACE_LENGTH : Nat := 2

/-- Macro `NUMBER_OF_DIFFERENT_IRQS`, defined as 2. -/
def NUMBER_OF_DIFFERENT_IRQS : Nat := 2

/-- Macro `IRQ_NUMS`, the initialiser list 1, 2. -/
def IRQ_NUMS : List Nat := [1, 2]

/-- Macro `INPUT_DATA`: per trace entry the irq number, the start time and
the length. -/
def INPUT_DATA : List Nat := [1, 5, 10, 2, 10000, 15]

/-! ## Machine integers -/

/-- Conversion to `uint8_t`. -/
def toU8 (n : Nat) : Nat := n % 2 ^ 8

/-- Conversion to `uint64_t`. -/
def toU64 (n : Nat) : Nat := n % 2 ^ 64

/-- The cast `(long int)` of a 64-bit unsigned value (two's complement). -/
def toI64 (n : Nat) : Int :=
  if n % 2 ^ 64 < 2 ^ 63 then ((n % 2 ^ 64 : Nat) : Int)
  else ((n % 2 ^ 64 : Nat) : Int) - 2 ^ 64

/-- Result of a `long int` operation whose mathematical value is `z`
(wrap-around on overflow). -/
def wrapI64 (z : Int) : Int := toI64 (z % 2 ^ 64).toNat

/-- Array store `a[i] = v` on a table seen as a function of the index. -/
def store {α : Type} (a : Nat → α) (i : Nat) (v : α) : Nat → α :=
  fun j => if j = i then v else a j

/-! ## State, environment, effects -/

/-- The file-scope variables of `intersched.c`. -/
structure State where
  /-- Global `first_interrupt_vector`: `none` is null, `some b` an allocated cell
  whose first byte (what `*first_interrupt_vector` reads) is `b`. -/
  first_interrupt_vector : Option Nat
  /-- Global `irq_to_real_vectors`: `none` is null, `some t` a byte table with
  `t j` at offset `j` from the base address. -/
  irq_to_real_vectors : Option (Nat → Nat)
  /-- Global `interrupt_state`: `none` is null, `some p` a pointer table where
  `p j = none` is an entry never set and `p j = some d` an allocated work
  slot holding `d`. -/
  interrupt_state : Option (Nat → Option Nat)
  /-- Global `interrupt_counter`. -/
  interrupt_counter : Nat

/-- The state the static initialisers give. -/
def State.init : State := ⟨none, none, none, 0⟩

/-- The kernel around the engine. -/
structure Env where
  /-- Return value of `idt_find_and_reserve_range`. -/
  idt_find_and_reserve_range : Int
  /-- Content of the cell `first` points to when that call has returned. -/
  reserve_cell : Nat
  /-- Return value of `idt_assign_entry` for a given entry number. -/
  idt_assign_entry : Nat → Int
  /-- Content of freshly allocated memory. -/
  garbage : Nat → Nat
  /-- The value the `k`-th call of `nk_sched_get_realtime` returns. -/
  clock : Nat → Nat

/-- Observable actions, logged in program order. -/
inductive Effect where
  /-- Call `idt_find_and_reserve_range(n, aligned, first_interrupt_vector)`. -/
  | reserve_range (n aligned : Nat)
  /-- Error print: IDT Entries Could not Be Set. -/
  | error_not_set
  /-- Store `irq_to_real_vectors[idx] = val`. -/
  | map_write (idx val : Nat)
  /-- Store `interrupt_state[idx] = malloc(sizeof(uint64_t))`. -/
  | slot_alloc (idx : Nat)
  /-- Call `idt_assign_entry(entry, intersched_irq_handler, interrupt_state[slot])`. -/
  | assign_entry (entry slot : Nat)
  /-- Error print: Failed to assign idt entry, with the entry number. -/
  | error_assign (entry : Nat)
  /-- Console print: IDT Entries Sucesffuly Set. -/
  | print_set
  /-- Call `nk_sched_get_realtime()` returning `t`. -/
  | clock_read (t : Nat)
  /-- Console print: avg time delay is `v`. -/
  | print_avg (v : Nat)
  /-- read of `irq_to_real_vectors[idx]` -/
  | map_read (idx : Nat)
  /-- Store `*(interrupt_state[idx]) = val`. -/
  | slot_write (idx val : Nat)
  /-- Call `apic_ipi(per_cpu_get(apic), sys.cpus[cpu]->lapic_id, vec)`. -/
  | apic_ipi (cpu vec : Nat)
  /-- Call `nk_delay(ns)`. -/
  | nk_delay (ns : Nat)
  /-- Call `IRQ_HANDLER_END()`. -/
  | eoi
  /-- Console print: intersched shell command processing. -/
  | print_processing
  /-- Console print: Discard first run as the average time delay changes once
  paging is complete. -/
  | print_discard
  /-- Console print: Test done. -/
  | print_done
  /-- Console print: Number of dropped interrupts `v`. -/
  | print_dropped (v : Nat)
  deriving DecidableEq, Repr

/-! ## `intersched_irq_handler` -/

/-- Statement `interrupt_counter++` on a `uint64_t`. -/
def bump (s : State) : State :=
  { s with interrupt_counter := toU64 (s.interrupt_counter + 1) }

/-- What one handler invocation yields. -/
structure HandlerResult where
  state : State
  effects : List Effect
  ret : Int

/-- Function `intersched_irq_handler (et, ev, state)`, where `state` is the address of
work slot `slot` (the one registered for the vector in `setup_interrupt`).
`none`: the pointer does not address an allocated slot. -/
def intersched_irq_handler (s : State) (slot : Nat) : Option HandlerResult :=
  match s.interrupt_state with
  | none => none
  | some st =>
    match st slot with
    | none => none
    | some time_in_ns => some ⟨bump s, [.nk_delay time_in_ns, .eoi], 0⟩

/-! ## `setup_interrupt` -/

/-- What `setup_interrupt` yields. -/
structure SetupResult where
  state : State
  effects : List Effect
  ret : Int

/-- The `for` loop of `setup_interrupt`, with `rem` iterations left at index
`i`.  The last component is `false` when the loop left by `return -1`. -/
def setup_loop (env : Env) (fv : Nat) :
    Nat → Nat → (Nat → Nat) → (Nat → Option Nat) → List Effect →
      (Nat → Nat) × (Nat → Option Nat) × List Effect × Bool
  | 0, _, tbl, st, eff => (tbl, st, eff, true)
  | rem + 1, i, tbl, st, eff =>
    let irq := toU8 (IRQ_NUMS.getD i 0)
    let tbl1 := store tbl irq (toU8 (i + fv))
    let st1 := store st irq (some (toU64 (env.garbage irq)))
    let ret_val := env.idt_assign_entry (fv + i)
    let eff1 := eff ++ [.map_write irq (toU8 (i + fv)), .slot_alloc irq,
      .assign_entry (fv + i) irq]
    if ret_val + 1 = 0 then (tbl1, st1, eff1 ++ [.error_assign (fv + i)], false)
    else setup_loop env fv rem (i + 1) tbl1 st1 eff1

/-- Function `setup_interrupt()`. -/
def setup_interrupt (env : Env) (s : State) : SetupResult :=
  match s.first_interrupt_vector with
  | some _ => ⟨s, [], 0⟩
  | none =>
    let fv := toU8 env.reserve_cell
    let s1 := { s with first_interrupt_vector := some fv }
    let ret_val := env.idt_find_and_reserve_range
    let eff := [Effect.reserve_range NUMBER_OF_DIFFERENT_IRQS 1]
    if ret_val + 1 = 0 then ⟨s1, eff ++ [.error_not_set], 0⟩
    else
      let l := setup_loop env fv NUMBER_OF_DIFFERENT_IRQS 0
        (fun j => toU8 (env.garbage j)) (fun _ => none) eff
      let s2 := { s1 with irq_to_real_vectors := some l.1,
                          interrupt_state := some l.2.1 }
      if l.2.2.2 then ⟨s2, l.2.2.1 ++ [.print_set], 0⟩ else ⟨s2, l.2.2.1, -1⟩

/-! ## `time_delay` -/

/-- The `k`-th call of `nk_sched_get_realtime()`, a `uint64_t`. -/
def nk_sched_get_realtime (env : Env) (k : Nat) : Nat := toU64 (env.clock k)

/-- What `time_delay` yields; `now` counts the clock reads made so far. -/
structure TimeDelayResult where
  state : State
  effects : List Effect
  now : Nat
  value : Nat

/-- Function `time_delay()`, entered after `now` clock reads. -/
def time_delay (env : Env) (s : State) (now : Nat) : TimeDelayResult :=
  let init_time := nk_sched_get_realtime env now
  let after_time := nk_sched_get_realtime env (now + 10)
  let avg_time_delay := toU64 (after_time + 2 ^ 64 - init_time) / 10
  ⟨s, (List.range 11).map (fun k => .clock_read (nk_sched_get_realtime env (now + k)))
        ++ [.print_avg avg_time_delay],
   now + 11, avg_time_delay⟩

/-! ## `run_intersched_test` -/

/-- How a run ended. -/
inductive Outcome where
  /-- the function returned -/
  | returned
  /-- an access through a null or never-set pointer -/
  | undefined
  /-- the busy-wait was still spinning when the fuel ran out -/
  | spinning
  deriving DecidableEq, Repr

/-- What a run yields. -/
structure Run where
  state : State
  effects : List Effect
  now : Nat
  outcome : Outcome

/-- The initialiser of `test_reference_time_ns`,
`(long int)(nk_sched_get_realtime() + 1000U)`, made at clock read `now`. -/
def test_reference_time_ns (env : Env) (now : Nat) : Int :=
  toI64 (toU64 (nk_sched_get_realtime env now + 1000))

/-- The left side of the busy-wait comparison,
`test_reference_time_ns + (long int)offset - (long int)avg_time_delay`. -/
def deadline (ref : Int) (offset avg : Nat) : Int :=
  wrapI64 (wrapI64 (ref + toI64 offset) - toI64 avg)

/-- The empty `while` loop: the index of the clock read at which the
condition `deadline > (long int)nk_sched_get_realtime()` is first false,
starting with read `k`. -/
def spin (env : Env) (d : Int) : Nat → Nat → Option Nat
  | 0, _ => none
  | fuel + 1, k =>
    if d > toI64 (nk_sched_get_realtime env k) then spin env d fuel (k + 1)
    else some k

/-- The clock reads number `k` to `j`, as effects. -/
def reads (env : Env) (k j : Nat) : List Effect :=
  (List.range (j + 1 - k)).map (fun m => .clock_read (nk_sched_get_realtime env (k + m)))

/-- The `for` loop of `run_intersched_test`, with `rem` entries left at array
index `i`. -/
def play_loop (env : Env) (fuel : Nat) (ref : Int) (avg : Nat) :
    Nat → Nat → State → Nat → List Effect → Run
  | 0, _, s, now, eff => ⟨s, eff, now, .returned⟩
  | rem + 1, i, s, now, eff =>
    let irq_num := toU8 (INPUT_DATA.getD i 0)
    match s.irq_to_real_vectors with
    | none => ⟨s, eff, now, .undefined⟩
    | some tbl =>
      let real_vector_num := tbl irq_num
      match s.interrupt_state with
      | none => ⟨s, eff ++ [.map_read irq_num], now, .undefined⟩
      | some st =>
        match st irq_num with
        | none => ⟨s, eff ++ [.map_read irq_num], now, .undefined⟩
        | some _ =>
          let v := toU64 (INPUT_DATA.getD (i + 2) 0)
          let s1 := { s with interrupt_state := some (store st irq_num (some v)) }
          let eff1 := eff ++ [.map_read irq_num, .slot_write irq_num v]
          match spin env (deadline ref (INPUT_DATA.getD (i + 1) 0) avg) fuel now with
          | none => ⟨s1, eff1, now, .spinning⟩
          | some j =>
            play_loop env fuel ref avg rem (i + 3) s1 (j + 1)
              (eff1 ++ reads env now j ++ [.apic_ipi 1 real_vector_num])

/-- Function `run_intersched_test()`; each busy-wait may make `fuel` clock reads. -/
def run_intersched_test (env : Env) (fuel : Nat) (s : State) : Run :=
  let r := setup_interrupt env s
  if r.ret + 1 = 0 then ⟨r.state, r.effects, 0, .returned⟩
  else
    let td := time_delay env r.state 0
    let p := play_loop env fuel (test_reference_time_ns env td.now) td.value TRACE_LENGTH 0
      td.state
      (td.now + 1)
      (r.effects ++ td.effects ++ [.clock_read (nk_sched_get_realtime env td.now)])
    match p.outcome with
    | .returned => { p with effects := p.effects ++ [.nk_delay 10000000000] }
    | _ => p

/-! ## `handle_intersched` -/

/-- The argument of the last `nk_vc_printf`: `TRACE_LENGTH - interrupt_counter`,
an `int` minus a `uint64_t`, evaluated in `uint64_t`. -/
def dropped (interrupt_counter : Nat) : Nat :=
  toU64 (TRACE_LENGTH + 2 ^ 64 - toU64 interrupt_counter)

/-- What the shell command yields; `ret = none` when the run did not return. -/
structure HandleResult where
  state : State
  effects : List Effect
  ret : Option Int

/-- Function `handle_intersched (buf, priv)`.  `arrivals` is the number of handler
invocations on the target processor between entry and the final read of
`interrupt_counter`. -/
def handle_intersched (env : Env) (fuel arrivals : Nat) (s : State) : HandleResult :=
  let r := run_intersched_test env fuel s
  match r.outcome with
  | .returned =>
    let s1 := bump^[arrivals] r.state
    ⟨s1, [.print_processing, .print_discard] ++ r.effects ++
          [.print_done, .print_dropped (dropped s1.interrupt_counter)], some 0⟩
  | _ => ⟨r.state, [.print_processing, .print_discard] ++ r.effects, none⟩

/-! ## Projections of the effect log and concrete inputs -/

/-- The index of an access to `irq_to_real_vectors`. -/
def map_index : Effect → Option Nat
  | .map_write idx _ => some idx
  | .map_read idx => some idx
  | _ => none

/-- The index of an access to `interrupt_state`. -/
def slot_index : Effect → Option Nat
  | .slot_alloc idx => some idx
  | .slot_write idx _ => some idx
  | .assign_entry _ idx => some idx
  | _ => none

/-- The two kinds of action the trace player takes per entry: work-slot
writes and inter-processor signals. -/
def is_player_action : Effect → Bool
  | .slot_write _ _ => true
  | .apic_ipi _ _ => true
  | _ => false

/-- A kernel where the reservation yields vector 32, every assignment
succeeds and each clock read comes 2000 ns after the previous one, up to
a ceiling of one millisecond. -/
def envOk : Env := ⟨0, 32, fun _ => 0, fun _ => 7, fun k => min (2000 * k) 1000000⟩

/-- A kernel where the vector-range reservation fails. -/
def envReserveFails : Env := ⟨-1, 0, fun _ => 0, fun _ => 7, fun k => min (2000 * k) 1000000⟩

/-- The globals after a first command invocation in which both interrupts
were handled. -/
def afterFirstRun : State := (handle_intersched envOk 20 2 State.init).state

/-- The globals after a first command invocation in which one interrupt was
handled. -/
def afterOneArrival : State := (handle_intersched envOk 20 1 State.init).state

/-- A work-slot table with slot 1 holding 10, used to exercise the handler. -/
def demoState : State :=
  ⟨some 32, some (fun _ => 0), some (store (fun _ => none) 1 (some 10)), 41⟩

/-! ## Auxiliary facts -/

theorem setup_interrupt_sets_first (env : Env) (s : State) :
    ∃ b, (setup_interrupt env s).state.first_interrupt_vector = some b := by
  unfold setup_interrupt
  cases h : s.first_interrupt_vector with
  | some b => exact ⟨b, by simp [h]⟩
  | none =>
    refine ⟨toU8 env.reserve_cell, ?_⟩
    simp only []
    split_ifs <;> rfl

theorem setup_interrupt_counter (env : Env) (s : State) :
    (setup_interrupt env s).state.interrupt_counter = s.interrupt_counter := by
  unfold setup_interrupt
  cases h : s.first_interrupt_vector with
  | some b => simp
  | none =>
    simp only []
    split_ifs <;> rfl

theorem bump_iterate_counter (n : Nat) (s : State) :
    (bump^[n] s).interrupt_counter = if n = 0 then s.interrupt_counter
      else toU64 (s.interrupt_counter + n) := by
  induction n generalizing s with
  | zero => simp
  | succ n ih =>
    rw [Function.iterate_succ_apply, ih]
    by_cases hn : n = 0
    · subst hn; simp [bump]
    · simp only [hn, if_false, Nat.succ_ne_zero, bump, toU64]
      omega

theorem toU64_lt (n : Nat) : toU64 n < 2 ^ 64 := Nat.mod_lt _ (by norm_num)

theorem setup_interrupt_success (env : Env) (s : State)
    (hfresh : s.first_interrupt_vector = none)
    (hres : env.idt_find_and_reserve_range ≠ -1)
    (hass : ∀ i, i < NUMBER_OF_DIFFERENT_IRQS →
      env.idt_assign_entry (toU8 env.reserve_cell + i) ≠ -1) :
    setup_interrupt env s =
      ⟨{ s with
          first_interrupt_vector := some (toU8 env.reserve_cell),
          irq_to_real_vectors := some
            (store (store (fun j => toU8 (env.garbage j)) 1 (toU8 (0 + toU8 env.reserve_cell)))
              2 (toU8 (1 + toU8 env.reserve_cell))),
          interrupt_state := some
            (store (store (fun _ => none) 1 (some (toU64 (env.garbage 1))))
              2 (some (toU64 (env.garbage 2)))) },
       [.reserve_range 2 1,
        .map_write 1 (toU8 (0 + toU8 env.reserve_cell)), .slot_alloc 1,
        .assign_entry (toU8 env.reserve_cell + 0) 1,
        .map_write 2 (toU8 (1 + toU8 env.reserve_cell)), .slot_alloc 2,
        .assign_entry (toU8 env.reserve_cell + 1) 2,
        .print_set], 0⟩ := by
  have h0 : env.idt_assign_entry (toU8 env.reserve_cell) + 1 ≠ 0 := by
    have := hass 0 (by decide)
    simp only [Nat.add_zero] at this
    omega
  have h1 : env.idt_assign_entry (toU8 env.reserve_cell + 1) + 1 ≠ 0 := by
    have := hass 1 (by decide); omega
  have hr : env.idt_find_and_reserve_range + 1 ≠ 0 := by omega
  have e1 : toU8 1 = 1 := rfl
  have e2 : toU8 2 = 2 := rfl
  simp [setup_interrupt, hfresh, hr, setup_loop, NUMBER_OF_DIFFERENT_IRQS, IRQ_NUMS, h0, h1,
    e1, e2]

theorem toI64_of_lt (n : Nat) (h : n < 2 ^ 63) : toI64 n = (n : Int) := by
  unfold toI64
  have h2 : n % 2 ^ 64 = n := Nat.mod_eq_of_lt (by omega)
  rw [h2, if_pos h]

theorem wrapI64_of_range (z : Int) (h1 : -(2 ^ 63) ≤ z) (h2 : z < 2 ^ 63) : wrapI64 z = z := by
  unfold wrapI64 toI64
  split_ifs with h <;> omega

theorem spin_sound (env : Env) (d : Int) (fuel k j : Nat) (h : spin env d fuel k = some j) :
    k ≤ j ∧ d ≤ toI64 (nk_sched_get_realtime env j) ∧
      ∀ m, k ≤ m → m < j → toI64 (nk_sched_get_realtime env m) < d := by
  induction fuel generalizing k with
  | zero => simp [spin] at h
  | succ n ih =>
    unfold spin at h
    split_ifs at h with hc
    · obtain ⟨h1, h2, h3⟩ := ih (k + 1) h
      refine ⟨by omega, h2, ?_⟩
      intro m hm hmj
      by_cases hmk : m = k
      · subst hmk; exact hc
      · exact h3 m (by omega) hmj
    · simp only [Option.some.injEq] at h
      subst h
      exact ⟨le_refl _, not_lt.mp hc, fun m hm hmj => absurd hmj (by omega)⟩

theorem spin_first (env : Env) (d : Int) (fuel k : Nat)
    (h : d ≤ toI64 (nk_sched_get_realtime env k)) : spin env d (fuel + 1) k = some k := by
  unfold spin
  rw [if_neg (not_lt.mpr h)]

theorem spin_complete (env : Env) (d : Int) (J : Nat)
    (h : ∀ m, J ≤ m → d ≤ toI64 (nk_sched_get_realtime env m)) (n k : Nat) (hk : J ≤ k + n) :
    ∃ j, spin env d (n + 1) k = some j := by
  induction n generalizing k with
  | zero => exact ⟨k, spin_first env d 0 k (h k hk)⟩
  | succ n ih =>
    unfold spin
    split_ifs with hc
    · exact ih (k + 1) (by omega)
    · exact ⟨k, rfl⟩

theorem play_loop_two (env : Env) (fuel : Nat) (ref : Int) (avg : Nat) (s : State)
    (now : Nat) (eff : List Effect) (tbl : Nat → Nat) (st : Nat → Option Nat)
    (hmap : s.irq_to_real_vectors = some tbl) (hst : s.interrupt_state = some st)
    (h1 : (st 1).isSome) (h2 : (st 2).isSome) :
    play_loop env fuel ref avg TRACE_LENGTH 0 s now eff =
      match spin env (deadline ref 5 avg) fuel now with
      | none =>
        ⟨{ s with interrupt_state := some (store st 1 (some 10)) },
          eff ++ [.map_read 1, .slot_write 1 10], now, .spinning⟩
      | some j1 =>
        match spin env (deadline ref 10000 avg) fuel (j1 + 1) with
        | none =>
          ⟨{ s with interrupt_state := some (store (store st 1 (some 10)) 2 (some 15)) },
            eff ++ [.map_read 1, .slot_write 1 10] ++ reads env now j1 ++ [.apic_ipi 1 (tbl 1)]
              ++ [.map_read 2, .slot_write 2 15], j1 + 1, .spinning⟩
        | some j2 =>
          ⟨{ s with interrupt_state := some (store (store st 1 (some 10)) 2 (some 15)) },
            eff ++ [.map_read 1, .slot_write 1 10] ++ reads env now j1 ++ [.apic_ipi 1 (tbl 1)]
              ++ [.map_read 2, .slot_write 2 15] ++ reads env (j1 + 1) j2
              ++ [.apic_ipi 1 (tbl 2)], j2 + 1, .returned⟩ := by
  obtain ⟨d1, hd1⟩ := Option.isSome_iff_exists.mp h1
  obtain ⟨d2, hd2⟩ := Option.isSome_iff_exists.mp h2
  have e1 : toU8 1 = 1 := rfl
  have e2 : toU8 2 = 2 := rfl
  have e3 : toU64 10 = 10 := rfl
  have e4 : toU64 15 = 15 := rfl
  have hs2 : store st 1 (some 10) 2 = some d2 := by simp [store, hd2]
  simp only [TRACE_LENGTH, play_loop, INPUT_DATA, hmap, hst, hd1, List.getD_cons_zero,
    List.getD_cons_succ, e1, e2, e3, e4, Nat.zero_add, Nat.reduceAdd]
  cases hsp1 : spin env (deadline ref 5 avg) fuel now with
  | none => simp
  | some j1 => simp only [hs2]

theorem toU64_of_lt (n : Nat) (h : n < 2 ^ 64) : toU64 n = n := Nat.mod_eq_of_lt h

theorem time_delay_value_lt (env : Env) (s : State) (now : Nat) :
    (time_delay env s now).value < 2 ^ 63 := by
  simp only [time_delay, toU64]
  omega

theorem time_delay_now (env : Env) (s : State) (now : Nat) :
    (time_delay env s now).now = now + 11 := rfl

theorem time_delay_state (env : Env) (s : State) (now : Nat) :
    (time_delay env s now).state = s := rfl

theorem deadline_eq (env : Env) (now off avg : Nat) (hc : env.clock now + 11000 < 2 ^ 63)
    (hoff : off ≤ 10000) (havg : avg < 2 ^ 63) :
    deadline (test_reference_time_ns env now) off avg =
      (env.clock now : Int) + 1000 + off - avg := by
  unfold test_reference_time_ns nk_sched_get_realtime
  generalize env.clock now = c at hc
  have h1 : toU64 c = c := toU64_of_lt c (by omega)
  have h2 : toU64 (c + 1000) = c + 1000 := toU64_of_lt _ (by omega)
  have h3 : toI64 (c + 1000) = ((c + 1000 : Nat) : Int) := toI64_of_lt _ (by omega)
  have h4 : toI64 off = (off : Int) := toI64_of_lt _ (by omega)
  have h5 : toI64 avg = (avg : Int) := toI64_of_lt _ havg
  have h6 : wrapI64 (((c + 1000 : Nat) : Int) + (off : Int)) =
      ((c + 1000 : Nat) : Int) + (off : Int) := wrapI64_of_range _ (by omega) (by omega)
  unfold deadline
  rw [h1, h2, h3, h4, h5, h6, wrapI64_of_range _ (by omega) (by omega)]
  push_cast
  ring

theorem run_intersched_test_ready (env : Env) (fuel : Nat) (s : State)
    (tbl : Nat → Nat) (st : Nat → Option Nat)
    (hret : (setup_interrupt env s).ret = 0)
    (hmap : (setup_interrupt env s).state.irq_to_real_vectors = some tbl)
    (hst : (setup_interrupt env s).state.interrupt_state = some st)
    (hslots : ∀ a ∈ IRQ_NUMS, (st a).isSome) :
    run_intersched_test env fuel s =
      match spin env (deadline (test_reference_time_ns env 11) 5
          (time_delay env (setup_interrupt env s).state 0).value) fuel 12 with
      | none =>
        ⟨{ (setup_interrupt env s).state with
            interrupt_state := some (store st 1 (some 10)) },
          (setup_interrupt env s).effects ++ (time_delay env (setup_interrupt env s).state 0).effects
            ++ [.clock_read (nk_sched_get_realtime env 11)]
            ++ [.map_read 1, .slot_write 1 10], 12, .spinning⟩
      | some j1 =>
        match spin env (deadline (test_reference_time_ns env 11) 10000
            (time_delay env (setup_interrupt env s).state 0).value) fuel (j1 + 1) with
        | none =>
          ⟨{ (setup_interrupt env s).state with
              interrupt_state := some (store (store st 1 (some 10)) 2 (some 15)) },
            (setup_interrupt env s).effects
              ++ (time_delay env (setup_interrupt env s).state 0).effects
              ++ [.clock_read (nk_sched_get_realtime env 11)]
              ++ [.map_read 1, .slot_write 1 10] ++ reads env 12 j1 ++ [.apic_ipi 1 (tbl 1)]
              ++ [.map_read 2, .slot_write 2 15], j1 + 1, .spinning⟩
        | some j2 =>
          ⟨{ (setup_interrupt env s).state with
              interrupt_state := some (store (store st 1 (some 10)) 2 (some 15)) },
            (setup_interrupt env s).effects
              ++ (time_delay env (setup_interrupt env s).state 0).effects
              ++ [.clock_read (nk_sched_get_realtime env 11)]
              ++ [.map_read 1, .slot_write 1 10] ++ reads env 12 j1 ++ [.apic_ipi 1 (tbl 1)]
              ++ [.map_read 2, .slot_write 2 15] ++ reads env (j1 + 1) j2
              ++ [.apic_ipi 1 (tbl 2)] ++ [.nk_delay 10000000000], j2 + 1, .returned⟩ := by
  have h1 : (st 1).isSome := hslots 1 (by simp [IRQ_NUMS])
  have h2 : (st 2).isSome := hslots 2 (by simp [IRQ_NUMS])
  unfold run_intersched_test
  simp only [hret, zero_add, one_ne_zero, if_false, time_delay_now, time_delay_state]
  rw [play_loop_two env fuel _ _ _ _ _ tbl st hmap hst h1 h2]
  cases hsp1 : spin env (deadline (test_reference_time_ns env 11) 5
          (time_delay env (setup_interrupt env s).state 0).value) fuel 12 with
  | none => simp
  | some j1 =>
    cases hsp2 : spin env (deadline (test_reference_time_ns env 11) 10000
            (time_delay env (setup_interrupt env s).state 0).value) fuel (j1 + 1) with
    | none => simp [hsp2]
    | some j2 => simp [hsp2]

theorem clock_eq_of_range (env : Env) (hrange : ∀ k, env.clock k + 11000 < 2 ^ 63) (m : Nat) :
    toI64 (nk_sched_get_realtime env m) = (env.clock m : Int) := by
  have h := hrange m
  unfold nk_sched_get_realtime
  rw [toU64_of_lt _ (by omega), toI64_of_lt _ (by omega)]

theorem run_intersched_test_terminates (env : Env) (s : State)
    (tbl : Nat → Nat) (st : Nat → Option Nat)
    (hret : (setup_interrupt env s).ret = 0)
    (hmap : (setup_interrupt env s).state.irq_to_real_vectors = some tbl)
    (hst : (setup_interrupt env s).state.interrupt_state = some st)
    (hslots : ∀ a ∈ IRQ_NUMS, (st a).isSome)
    (hmono : ∀ a b, a ≤ b → env.clock a ≤ env.clock b)
    (hrange : ∀ k, env.clock k + 11000 < 2 ^ 63)
    (hreach : ∃ J, env.clock 11 + 11000 ≤ env.clock J) :
    ∃ fuel, (run_intersched_test env fuel s).outcome = .returned := by
  obtain ⟨J, hJ⟩ := hreach
  have havg := time_delay_value_lt env (setup_interrupt env s).state 0
  have hd : ∀ off, off ≤ 10000 → ∀ m, J ≤ m →
      deadline (test_reference_time_ns env 11) off
        (time_delay env (setup_interrupt env s).state 0).value ≤
        toI64 (nk_sched_get_realtime env m) := by
    intro off hoff m hm
    rw [deadline_eq env 11 off _ (hrange 11) hoff havg, clock_eq_of_range env hrange m]
    have := hmono J m hm
    omega
  obtain ⟨j1, h1⟩ := spin_complete env _ J (hd 5 (by norm_num)) J 12 (by omega)
  obtain ⟨j2, h2⟩ := spin_complete env _ J (hd 10000 (by norm_num)) J (j1 + 1) (by omega)
  refine ⟨J + 1, ?_⟩
  rw [run_intersched_test_ready env (J + 1) s tbl st hret hmap hst hslots]
  simp only [h1, h2]

theorem setup_loop_player_actions (env : Env) (fv rem i : Nat) (tbl : Nat → Nat)
    (st : Nat → Option Nat) (eff : List Effect) :
    (setup_loop env fv rem i tbl st eff).2.2.1.filter is_player_action =
      eff.filter is_player_action := by
  induction rem generalizing i tbl st eff with
  | zero => rfl
  | succ n ih =>
    unfold setup_loop
    simp only []
    split_ifs
    · simp [is_player_action]
    · rw [ih]
      simp [is_player_action]

theorem setup_interrupt_player_actions (env : Env) (s : State) :
    (setup_interrupt env s).effects.filter is_player_action = [] := by
  unfold setup_interrupt
  cases h : s.first_interrupt_vector with
  | some b => rfl
  | none =>
    simp only []
    split_ifs
    · rfl
    · rw [List.filter_append, setup_loop_player_actions]
      rfl
    · rw [setup_loop_player_actions]
      rfl

theorem reads_player_actions (env : Env) (k j : Nat) :
    (reads env k j).filter is_player_action = [] := by
  simp [reads, List.filter_eq_nil_iff, is_player_action]

theorem time_delay_player_actions (env : Env) (s : State) (now : Nat) :
    (time_delay env s now).effects.filter is_player_action = [] := by
  simp [time_delay, List.filter_eq_nil_iff, is_player_action]

theorem play_loop_counter (env : Env) (fuel : Nat) (ref : Int) (avg rem i : Nat) (s : State)
    (now : Nat) (eff : List Effect) :
    (play_loop env fuel ref avg rem i s now eff).state.interrupt_counter =
      s.interrupt_counter := by
  induction rem generalizing i s now eff with
  | zero => rfl
  | succ n ih =>
    unfold play_loop
    simp only []
    split
    · rfl
    · split
      · rfl
      · split
        · rfl
        · split
          · rfl
          · rw [ih]

theorem run_intersched_test_counter (env : Env) (fuel : Nat) (s : State) :
    (run_intersched_test env fuel s).state.interrupt_counter = s.interrupt_counter := by
  unfold run_intersched_test
  simp only []
  split_ifs
  · exact setup_interrupt_counter env s
  · split
    · simp only [play_loop_counter, time_delay_state, setup_interrupt_counter]
    · simp only [play_loop_counter, time_delay_state, setup_interrupt_counter]

theorem handle_intersched_report (env : Env) (fuel arrivals : Nat) (s : State)
    (hret : (run_intersched_test env fuel s).outcome = .returned) :
    (handle_intersched env fuel arrivals s).effects.getLast? =
      some (.print_dropped (dropped (bump^[arrivals] s).interrupt_counter)) ∧
    (handle_intersched env fuel arrivals s).ret = some 0 := by
  unfold handle_intersched
  simp only [hret]
  rw [bump_iterate_counter, bump_iterate_counter, run_intersched_test_counter]
  refine ⟨?_, trivial⟩
  generalize dropped _ = v
  have hsplit : [Effect.print_processing, Effect.print_discard]
      ++ (run_intersched_test env fuel s).effects ++ [Effect.print_done, Effect.print_dropped v] =
      ([Effect.print_processing, Effect.print_discard]
        ++ (run_intersched_test env fuel s).effects ++ [Effect.print_done])
        ++ [Effect.print_dropped v] := by simp
  rw [hsplit, List.getLast?_concat]

/-! ## Claims -/

/-- C2: `setup_interrupt` is idempotent.  Whatever the first call did, a
second call (in any environment) makes no reservation and no assignment (its
effect log is empty), leaves every global as it was and returns 0. -/
theorem setup_interrupt_idempotent (env env2 : Env) (s : State) :
    (setup_interrupt env2 (setup_interrupt env s).state).effects = [] ∧
    (setup_interrupt env2 (setup_interrupt env s).state).state = (setup_interrupt env s).state ∧
    (setup_interrupt env2 (setup_interrupt env s).state).ret = 0 := by
  obtain ⟨b, hb⟩ := setup_interrupt_sets_first env s
  generalize (setup_interrupt env s).state = t at hb
  simp [setup_interrupt, hb]

/-- C9: an invocation of `intersched_irq_handler` on a work slot holding `d`
adds one to `interrupt_counter` (in `uint64_t` arithmetic, so exactly one
whenever the counter is not at its maximum), delays for exactly `d`, signals
end-of-interrupt after the delay, returns 0 and leaves the work slots, the
mapping and `first_interrupt_vector` unchanged. -/
theorem intersched_irq_handler_spec (s : State) (st : Nat → Option Nat) (slot d : Nat)
    (hst : s.interrupt_state = some st) (hd : st slot = some d) :
    ∃ r, intersched_irq_handler s slot = some r ∧
      r.state.interrupt_counter = (s.interrupt_counter + 1) % 2 ^ 64 ∧
      (s.interrupt_counter + 1 < 2 ^ 64 →
        r.state.interrupt_counter = s.interrupt_counter + 1) ∧
      r.effects = [.nk_delay d, .eoi] ∧
      r.ret = 0 ∧
      r.state.interrupt_state = s.interrupt_state ∧
      r.state.irq_to_real_vectors = s.irq_to_real_vectors ∧
      r.state.first_interrupt_vector = s.first_interrupt_vector := by
  refine ⟨⟨bump s, [.nk_delay d, .eoi], 0⟩, ?_, rfl, ?_, rfl, rfl, rfl, rfl, rfl⟩
  · simp [intersched_irq_handler, hst, hd]
  · intro h
    simp only [bump, toU64]
    exact Nat.mod_eq_of_lt h

theorem intersched_irq_handler_spec_witness :
    ∃ r, intersched_irq_handler demoState 1 = some r ∧
      r.state.interrupt_counter = (demoState.interrupt_counter + 1) % 2 ^ 64 ∧
      (demoState.interrupt_counter + 1 < 2 ^ 64 →
        r.state.interrupt_counter = demoState.interrupt_counter + 1) ∧
      r.effects = [.nk_delay 10, .eoi] ∧
      r.ret = 0 ∧
      r.state.interrupt_state = demoState.interrupt_state ∧
      r.state.irq_to_real_vectors = demoState.irq_to_real_vectors ∧
      r.state.first_interrupt_vector = demoState.first_interrupt_vector :=
  intersched_irq_handler_spec demoState (store (fun _ => none) 1 (some 10)) 1 10 rfl rfl

/-- C8: for non-decreasing clock readings `t 0 .. t 10` of the eleven calls,
`time_delay` returns `floor ((t 10 - t 0) / 10)`, which is the floor of the
mean of the ten consecutive deltas, a non-negative value, and it leaves the
engine state as it was. -/
theorem time_delay_spec (env : Env) (s : State) (now : Nat)
    (hmono : ∀ k, k < 10 →
      nk_sched_get_realtime env (now + k) ≤ nk_sched_get_realtime env (now + (k + 1))) :
    ((time_delay env s now).value : Int) =
      ⌊(((nk_sched_get_realtime env (now + 10) : Int) : ℚ) -
          ((nk_sched_get_realtime env (now + 0) : Int) : ℚ)) / 10⌋ ∧
    ((time_delay env s now).value : Int) =
      ⌊(∑ k in Finset.range 10,
          (((nk_sched_get_realtime env (now + (k + 1)) : Int) : ℚ) -
            ((nk_sched_get_realtime env (now + k) : Int) : ℚ))) / 10⌋ ∧
    (0 : Int) ≤ ((time_delay env s now).value : Int) ∧
    (time_delay env s now).state = s ∧
    (time_delay env s now).effects =
      (List.range 11).map (fun k => Effect.clock_read (nk_sched_get_realtime env (now + k)))
        ++ [.print_avg (time_delay env s now).value] := by
  have hle : nk_sched_get_realtime env (now + 0) ≤ nk_sched_get_realtime env (now + 10) := by
    have h0 := hmono 0 (by norm_num)
    have h1 := hmono 1 (by norm_num)
    have h2 := hmono 2 (by norm_num)
    have h3 := hmono 3 (by norm_num)
    have h4 := hmono 4 (by norm_num)
    have h5 := hmono 5 (by norm_num)
    have h6 := hmono 6 (by norm_num)
    have h7 := hmono 7 (by norm_num)
    have h8 := hmono 8 (by norm_num)
    have h9 := hmono 9 (by norm_num)
    simp only [Nat.reduceAdd] at h0 h1 h2 h3 h4 h5 h6 h7 h8 h9
    omega
  have hlt : nk_sched_get_realtime env (now + 10) < 2 ^ 64 := toU64_lt _
  have hval : (time_delay env s now).value =
      (nk_sched_get_realtime env (now + 10) - nk_sched_get_realtime env (now + 0)) / 10 := by
    simp only [time_delay, toU64, Nat.add_zero] at *
    congr 1
    omega
  have hfloor : ((time_delay env s now).value : Int) =
      ⌊(((nk_sched_get_realtime env (now + 10) : Int) : ℚ) -
          ((nk_sched_get_realtime env (now + 0) : Int) : ℚ)) / 10⌋ := by
    rw [hval]
    have : (((nk_sched_get_realtime env (now + 10) : Int) : ℚ) -
          ((nk_sched_get_realtime env (now + 0) : Int) : ℚ)) =
        (((nk_sched_get_realtime env (now + 10) -
            nk_sched_get_realtime env (now + 0) : Nat) : Int) : ℚ) := by
      push_cast [Nat.cast_sub hle]
      ring
    rw [this]
    have h10 : (10 : ℚ) = ((10 : Nat) : ℚ) := by norm_num
    rw [h10, Rat.floor_intCast_div_natCast]
    norm_cast
  refine ⟨hfloor, ?_, Int.natCast_nonneg _, rfl, rfl⟩
  rw [hfloor, Finset.sum_range_sub (fun k => ((nk_sched_get_realtime env (now + k) : Int) : ℚ))]

/-- C5: after a successful `setup_interrupt` (fresh state, reservation and both
assignments succeed) distinct identifiers of `IRQ_NUMS` are mapped to
distinct vectors; and when the reserved range lies in the 256-entry vector
space, the identifier at position `i` is mapped to
`*first_interrupt_vector + i`, inside the reserved range. -/
theorem setup_interrupt_mapping_injective (env : Env) (s : State)
    (hfresh : s.first_interrupt_vector = none)
    (hres : env.idt_find_and_reserve_range ≠ -1)
    (hass : ∀ i, i < NUMBER_OF_DIFFERENT_IRQS →
      env.idt_assign_entry (toU8 env.reserve_cell + i) ≠ -1) :
    ∃ fv tbl, (setup_interrupt env s).ret = 0 ∧
      (setup_interrupt env s).state.first_interrupt_vector = some fv ∧
      (setup_interrupt env s).state.irq_to_real_vectors = some tbl ∧
      (∀ a ∈ IRQ_NUMS, ∀ b ∈ IRQ_NUMS, a ≠ b → tbl a ≠ tbl b) ∧
      (fv + NUMBER_OF_DIFFERENT_IRQS ≤ 256 →
        ∀ i, i < NUMBER_OF_DIFFERENT_IRQS →
          tbl (IRQ_NUMS.getD i 0) = fv + i ∧
          fv ≤ tbl (IRQ_NUMS.getD i 0) ∧
          tbl (IRQ_NUMS.getD i 0) < fv + NUMBER_OF_DIFFERENT_IRQS) := by
  rw [setup_interrupt_success env s hfresh hres hass]
  refine ⟨toU8 env.reserve_cell, _, rfl, rfl, rfl, ?_, ?_⟩
  · intro a ha b hb hab
    simp only [IRQ_NUMS, List.mem_cons, List.mem_singleton, List.not_mem_nil, or_false] at ha hb
    rcases ha with rfl | rfl <;> rcases hb with rfl | rfl <;>
      simp [store, toU8] at hab ⊢ <;> omega
  · intro hr i hi
    simp only [NUMBER_OF_DIFFERENT_IRQS] at hr hi
    have hi2 : i = 0 ∨ i = 1 := by omega
    rcases hi2 with rfl | rfl <;>
      (simp [store, toU8, IRQ_NUMS, NUMBER_OF_DIFFERENT_IRQS] at hr ⊢; try omega)

theorem setup_interrupt_mapping_injective_witness :
    ∃ fv tbl, (setup_interrupt envOk State.init).ret = 0 ∧
      (setup_interrupt envOk State.init).state.first_interrupt_vector = some fv ∧
      (setup_interrupt envOk State.init).state.irq_to_real_vectors = some tbl ∧
      (∀ a ∈ IRQ_NUMS, ∀ b ∈ IRQ_NUMS, a ≠ b → tbl a ≠ tbl b) ∧
      (fv + NUMBER_OF_DIFFERENT_IRQS ≤ 256 →
        ∀ i, i < NUMBER_OF_DIFFERENT_IRQS →
          tbl (IRQ_NUMS.getD i 0) = fv + i ∧
          fv ≤ tbl (IRQ_NUMS.getD i 0) ∧
          tbl (IRQ_NUMS.getD i 0) < fv + NUMBER_OF_DIFFERENT_IRQS) :=
  setup_interrupt_mapping_injective envOk State.init rfl (by decide)
    (fun _ _ => by simp [envOk])

/-- C10 (evaluation): in a successful `setup_interrupt` the indices used on
`irq_to_real_vectors` are 1 and 2; the table was allocated with
`NUMBER_OF_DIFFERENT_IRQS = 2` bytes, so index 2 is not below its length.
The indices used on `interrupt_state` are below 256. -/
theorem setup_interrupt_map_index_out_of_bounds (env : Env) (s : State)
    (hfresh : s.first_interrupt_vector = none)
    (hres : env.idt_find_and_reserve_range ≠ -1)
    (hass : ∀ i, i < NUMBER_OF_DIFFERENT_IRQS →
      env.idt_assign_entry (toU8 env.reserve_cell + i) ≠ -1) :
    (setup_interrupt env s).effects.filterMap map_index = [1, 2] ∧
    ¬ (∀ i ∈ (setup_interrupt env s).effects.filterMap map_index,
        i < NUMBER_OF_DIFFERENT_IRQS) ∧
    (∀ i ∈ (setup_interrupt env s).effects.filterMap slot_index, i < 256) := by
  rw [setup_interrupt_success env s hfresh hres hass]
  simp [map_index, slot_index, NUMBER_OF_DIFFERENT_IRQS]

theorem setup_interrupt_map_index_out_of_bounds_witness :
    (setup_interrupt envOk State.init).effects.filterMap map_index = [1, 2] ∧
    ¬ (∀ i ∈ (setup_interrupt envOk State.init).effects.filterMap map_index,
        i < NUMBER_OF_DIFFERENT_IRQS) ∧
    (∀ i ∈ (setup_interrupt envOk State.init).effects.filterMap slot_index, i < 256) :=
  setup_interrupt_map_index_out_of_bounds envOk State.init rfl (by decide)
    (fun _ _ => by simp [envOk])

/-- C6: when setup has succeeded (it returns 0 with the mapping table and the
work slots of the configured IRQs allocated), in every run that returns the
work-slot writes and `apic_ipi` calls are exactly, in this order: write 10
to slot 1, signal the vector mapped to IRQ 1 to CPU 1, write 15 to slot 2,
signal the vector mapped to IRQ 2 to CPU 1.  Such a run exists whenever the
clock is non-decreasing, stays below the signed range and eventually is
11000 ns past the start of play. -/
theorem run_intersched_test_signals (env : Env) (s : State)
    (tbl : Nat → Nat) (st : Nat → Option Nat)
    (hret : (setup_interrupt env s).ret = 0)
    (hmap : (setup_interrupt env s).state.irq_to_real_vectors = some tbl)
    (hst : (setup_interrupt env s).state.interrupt_state = some st)
    (hslots : ∀ a ∈ IRQ_NUMS, (st a).isSome) :
    ((∀ a b, a ≤ b → env.clock a ≤ env.clock b) →
      (∀ k, env.clock k + 11000 < 2 ^ 63) →
      (∃ J, env.clock 11 + 11000 ≤ env.clock J) →
      ∃ fuel, (run_intersched_test env fuel s).outcome = .returned) ∧
    ∀ fuel, (run_intersched_test env fuel s).outcome = .returned →
      (run_intersched_test env fuel s).effects.filter is_player_action =
        [.slot_write 1 10, .apic_ipi 1 (tbl 1), .slot_write 2 15, .apic_ipi 1 (tbl 2)] := by
  refine ⟨run_intersched_test_terminates env s tbl st hret hmap hst hslots, ?_⟩
  intro fuel
  rw [run_intersched_test_ready env fuel s tbl st hret hmap hst hslots]
  cases h1 : spin env (deadline (test_reference_time_ns env 11) 5
      (time_delay env (setup_interrupt env s).state 0).value) fuel 12 with
  | none => simp
  | some j1 =>
    cases h2 : spin env (deadline (test_reference_time_ns env 11) 10000
        (time_delay env (setup_interrupt env s).state 0).value) fuel (j1 + 1) with
    | none => simp [h2]
    | some j2 =>
      intro _
      simp only [h2, List.filter_append, setup_interrupt_player_actions,
        time_delay_player_actions, reads_player_actions]
      rfl

theorem run_intersched_test_signals_witness :
    (∃ fuel, (run_intersched_test envOk fuel State.init).outcome = .returned) ∧
    ∀ fuel, (run_intersched_test envOk fuel State.init).outcome = .returned →
      (run_intersched_test envOk fuel State.init).effects.filter is_player_action =
        [.slot_write 1 10, .apic_ipi 1 32, .slot_write 2 15, .apic_ipi 1 33] :=
  ⟨(run_intersched_test_signals envOk State.init
      (store (store (fun j => toU8 (envOk.garbage j)) 1 32) 2 33)
      (store (store (fun _ => none) 1 (some 7)) 2 (some 7))
      rfl rfl rfl (by decide)).1
      (fun a b h => by simp only [envOk]; omega)
      (fun k => by simp only [envOk]; omega)
      ⟨500, by decide⟩,
   (run_intersched_test_signals envOk State.init
      (store (store (fun j => toU8 (envOk.garbage j)) 1 32) 2 33)
      (store (store (fun _ => none) 1 (some 7)) 2 (some 7))
      rfl rfl rfl (by decide)).2⟩

theorem time_delay_spec_witness :
    ((time_delay envOk State.init 0).value : Int) =
      ⌊(((nk_sched_get_realtime envOk (0 + 10) : Int) : ℚ) -
          ((nk_sched_get_realtime envOk (0 + 0) : Int) : ℚ)) / 10⌋ ∧
    ((time_delay envOk State.init 0).value : Int) =
      ⌊(∑ k in Finset.range 10,
          (((nk_sched_get_realtime envOk (0 + (k + 1)) : Int) : ℚ) -
            ((nk_sched_get_realtime envOk (0 + k) : Int) : ℚ))) / 10⌋ ∧
    (0 : Int) ≤ ((time_delay envOk State.init 0).value : Int) ∧
    (time_delay envOk State.init 0).state = State.init ∧
    (time_delay envOk State.init 0).effects =
      (List.range 11).map
          (fun k => Effect.clock_read (nk_sched_get_realtime envOk (0 + k)))
        ++ [.print_avg (time_delay envOk State.init 0).value] :=
  time_delay_spec envOk State.init 0
    (fun k hk => by interval_cases k <;> decide)

/-- C7: in a run after a successful setup, the reference start is the clock
read made at the start of play plus 1000 and the calibration offset is the
value `time_delay` returned.  Every run that returns has, for each trace
entry, a block of clock reads between the slot write and the signal; the
last read of the block satisfies `deadline <= now` in signed 64-bit
arithmetic and no earlier read of the block does, so the signal follows a
read that met the deadline, and a deadline met at the first read gives a
block of one read.  When both deadlines are met at their first read the run
returns with one unit of fuel per wait.  Where nothing overflows the
deadline is `clock + 1000 + offset - calibration` as integers, and for a
non-decreasing clock that stays below the signed range and eventually is
11000 ns past the start of play a returning run exists. -/
theorem run_intersched_test_busy_wait (env : Env) (s : State)
    (tbl : Nat → Nat) (st : Nat → Option Nat)
    (hret : (setup_interrupt env s).ret = 0)
    (hmap : (setup_interrupt env s).state.irq_to_real_vectors = some tbl)
    (hst : (setup_interrupt env s).state.interrupt_state = some st)
    (hslots : ∀ a ∈ IRQ_NUMS, (st a).isSome) :
    (∀ fuel, (run_intersched_test env fuel s).outcome = .returned →
      ∃ j1 j2, 12 ≤ j1 ∧ j1 < j2 ∧
        (run_intersched_test env fuel s).effects =
          (setup_interrupt env s).effects
            ++ (time_delay env (setup_interrupt env s).state 0).effects
            ++ [.clock_read (nk_sched_get_realtime env 11)]
            ++ [.map_read 1, .slot_write 1 10] ++ reads env 12 j1 ++ [.apic_ipi 1 (tbl 1)]
            ++ [.map_read 2, .slot_write 2 15] ++ reads env (j1 + 1) j2
            ++ [.apic_ipi 1 (tbl 2)] ++ [.nk_delay 10000000000] ∧
        deadline (test_reference_time_ns env 11) 5
            (time_delay env (setup_interrupt env s).state 0).value ≤
          toI64 (nk_sched_get_realtime env j1) ∧
        deadline (test_reference_time_ns env 11) 10000
            (time_delay env (setup_interrupt env s).state 0).value ≤
          toI64 (nk_sched_get_realtime env j2) ∧
        (∀ m, 12 ≤ m → m < j1 → toI64 (nk_sched_get_realtime env m) <
          deadline (test_reference_time_ns env 11) 5
            (time_delay env (setup_interrupt env s).state 0).value) ∧
        (∀ m, j1 + 1 ≤ m → m < j2 → toI64 (nk_sched_get_realtime env m) <
          deadline (test_reference_time_ns env 11) 10000
            (time_delay env (setup_interrupt env s).state 0).value) ∧
        (deadline (test_reference_time_ns env 11) 5
            (time_delay env (setup_interrupt env s).state 0).value ≤
          toI64 (nk_sched_get_realtime env 12) → j1 = 12) ∧
        (deadline (test_reference_time_ns env 11) 10000
            (time_delay env (setup_interrupt env s).state 0).value ≤
          toI64 (nk_sched_get_realtime env (j1 + 1)) → j2 = j1 + 1)) ∧
    (∀ fuel,
      deadline (test_reference_time_ns env 11) 5
          (time_delay env (setup_interrupt env s).state 0).value ≤
        toI64 (nk_sched_get_realtime env 12) →
      deadline (test_reference_time_ns env 11) 10000
          (time_delay env (setup_interrupt env s).state 0).value ≤
        toI64 (nk_sched_get_realtime env 13) →
      (run_intersched_test env (fuel + 1) s).outcome = .returned ∧
      (run_intersched_test env (fuel + 1) s).now = 14) ∧
    (env.clock 11 + 11000 < 2 ^ 63 → ∀ off, off ≤ 10000 →
      deadline (test_reference_time_ns env 11) off
          (time_delay env (setup_interrupt env s).state 0).value =
        (env.clock 11 : Int) + 1000 + off -
          (time_delay env (setup_interrupt env s).state 0).value) ∧
    ((∀ a b, a ≤ b → env.clock a ≤ env.clock b) →
      (∀ k, env.clock k + 11000 < 2 ^ 63) →
      (∃ J, env.clock 11 + 11000 ≤ env.clock J) →
      ∃ fuel, (run_intersched_test env fuel s).outcome = .returned) := by
  refine ⟨?_, ?_, ?_, run_intersched_test_terminates env s tbl st hret hmap hst hslots⟩
  · intro fuel
    rw [run_intersched_test_ready env fuel s tbl st hret hmap hst hslots]
    cases h1 : spin env (deadline (test_reference_time_ns env 11) 5
        (time_delay env (setup_interrupt env s).state 0).value) fuel 12 with
    | none => simp
    | some j1 =>
      cases h2 : spin env (deadline (test_reference_time_ns env 11) 10000
          (time_delay env (setup_interrupt env s).state 0).value) fuel (j1 + 1) with
      | none => simp [h2]
      | some j2 =>
        intro _
        obtain ⟨a1, a2, a3⟩ := spin_sound env _ fuel 12 j1 h1
        obtain ⟨b1, b2, b3⟩ := spin_sound env _ fuel (j1 + 1) j2 h2
        refine ⟨j1, j2, a1, by omega, ?_, a2, b2, a3, b3, ?_, ?_⟩
        · simp only [h2]
        · intro h
          by_contra hne
          exact absurd (a3 12 (le_refl _) (by omega)) (not_lt.mpr h)
        · intro h
          by_contra hne
          exact absurd (b3 (j1 + 1) (le_refl _) (by omega)) (not_lt.mpr h)
  · intro fuel h1 h2
    rw [run_intersched_test_ready env (fuel + 1) s tbl st hret hmap hst hslots]
    rw [spin_first env _ fuel 12 h1]
    simp only []
    rw [spin_first env _ fuel 13 h2]
    exact ⟨rfl, rfl⟩
  · intro hc off hoff
    exact deadline_eq env 11 off _ hc hoff (time_delay_value_lt env _ 0)

theorem run_intersched_test_busy_wait_witness :
    (∀ fuel, (run_intersched_test envOk fuel State.init).outcome = .returned →
      ∃ j1 j2, 12 ≤ j1 ∧ j1 < j2 ∧
        (run_intersched_test envOk fuel State.init).effects =
          (setup_interrupt envOk State.init).effects
            ++ (time_delay envOk (setup_interrupt envOk State.init).state 0).effects
            ++ [.clock_read (nk_sched_get_realtime envOk 11)]
            ++ [.map_read 1, .slot_write 1 10] ++ reads envOk 12 j1 ++ [.apic_ipi 1 32]
            ++ [.map_read 2, .slot_write 2 15] ++ reads envOk (j1 + 1) j2
            ++ [.apic_ipi 1 33] ++ [.nk_delay 10000000000] ∧
        deadline (test_reference_time_ns envOk 11) 5
            (time_delay envOk (setup_interrupt envOk State.init).state 0).value ≤
          toI64 (nk_sched_get_realtime envOk j1) ∧
        deadline (test_reference_time_ns envOk 11) 10000
            (time_delay envOk (setup_interrupt envOk State.init).state 0).value ≤
          toI64 (nk_sched_get_realtime envOk j2) ∧
        (∀ m, 12 ≤ m → m < j1 → toI64 (nk_sched_get_realtime envOk m) <
          deadline (test_reference_time_ns envOk 11) 5
            (time_delay envOk (setup_interrupt envOk State.init).state 0).value) ∧
        (∀ m, j1 + 1 ≤ m → m < j2 → toI64 (nk_sched_get_realtime envOk m) <
          deadline (test_reference_time_ns envOk 11) 10000
            (time_delay envOk (setup_interrupt envOk State.init).state 0).value) ∧
        (deadline (test_reference_time_ns envOk 11) 5
            (time_delay envOk (setup_interrupt envOk State.init).state 0).value ≤
          toI64 (nk_sched_get_realtime envOk 12) → j1 = 12) ∧
        (deadline (test_reference_time_ns envOk 11) 10000
            (time_delay envOk (setup_interrupt envOk State.init).state 0).value ≤
          toI64 (nk_sched_get_realtime envOk (j1 + 1)) → j2 = j1 + 1)) ∧
    (∀ fuel,
      deadline (test_reference_time_ns envOk 11) 5
          (time_delay envOk (setup_interrupt envOk State.init).state 0).value ≤
        toI64 (nk_sched_get_realtime envOk 12) →
      deadline (test_reference_time_ns envOk 11) 10000
          (time_delay envOk (setup_interrupt envOk State.init).state 0).value ≤
        toI64 (nk_sched_get_realtime envOk 13) →
      (run_intersched_test envOk (fuel + 1) State.init).outcome = .returned ∧
      (run_intersched_test envOk (fuel + 1) State.init).now = 14) ∧
    (envOk.clock 11 + 11000 < 2 ^ 63 → ∀ off, off ≤ 10000 →
      deadline (test_reference_time_ns envOk 11) off
          (time_delay envOk (setup_interrupt envOk State.init).state 0).value =
        (envOk.clock 11 : Int) + 1000 + off -
          (time_delay envOk (setup_interrupt envOk State.init).state 0).value) ∧
    ((∀ a b, a ≤ b → envOk.clock a ≤ envOk.clock b) →
      (∀ k, envOk.clock k + 11000 < 2 ^ 63) →
      (∃ J, envOk.clock 11 + 11000 ≤ envOk.clock J) →
      ∃ fuel, (run_intersched_test envOk fuel State.init).outcome = .returned) :=
  run_intersched_test_busy_wait envOk State.init
    (store (store (fun j => toU8 (envOk.garbage j)) 1 32) 2 33)
    (store (store (fun _ => none) 1 (some 7)) 2 (some 7))
    rfl rfl rfl (by decide)

/-- C1 (evaluation): when `idt_find_and_reserve_range` reports failure on a
fresh state, `setup_interrupt` prints the error and returns 0, not -1; the
guard in `run_intersched_test` is not taken, the run goes on to calibrate and
to read the reference time, and reaches the first table access with
`irq_to_real_vectors` still null. -/
theorem run_intersched_test_reservation_failure (env : Env) (fuel : Nat) (s : State)
    (hfresh : s.first_interrupt_vector = none) (hnull : s.irq_to_real_vectors = none)
    (hfail : env.idt_find_and_reserve_range = -1) :
    (setup_interrupt env s).ret = 0 ∧
    (setup_interrupt env s).effects = [.reserve_range 2 1, .error_not_set] ∧
    (run_intersched_test env fuel s).effects =
      [.reserve_range 2 1, .error_not_set]
        ++ (time_delay env (setup_interrupt env s).state 0).effects
        ++ [.clock_read (nk_sched_get_realtime env 11)] ∧
    (run_intersched_test env fuel s).outcome = .undefined ∧
    (run_intersched_test env fuel s).effects ≠ (setup_interrupt env s).effects := by
  have hs : setup_interrupt env s =
      ⟨{ s with first_interrupt_vector := some (toU8 env.reserve_cell) },
        [.reserve_range 2 1, .error_not_set], 0⟩ := by
    simp [setup_interrupt, hfresh, hfail, NUMBER_OF_DIFFERENT_IRQS]
  have hr : run_intersched_test env fuel s =
      ⟨{ s with first_interrupt_vector := some (toU8 env.reserve_cell) },
        [.reserve_range 2 1, .error_not_set]
          ++ (time_delay env (setup_interrupt env s).state 0).effects
          ++ [.clock_read (nk_sched_get_realtime env 11)], 12, .undefined⟩ := by
    unfold run_intersched_test
    simp only [hs, zero_add, one_ne_zero, if_false, time_delay_now, time_delay_state,
      TRACE_LENGTH, play_loop, hnull]
  rw [hr, hs]
  refine ⟨rfl, rfl, rfl, rfl, ?_⟩
  simp [time_delay]

theorem run_intersched_test_reservation_failure_witness :
    (setup_interrupt envReserveFails State.init).ret = 0 ∧
    (setup_interrupt envReserveFails State.init).effects =
      [.reserve_range 2 1, .error_not_set] ∧
    (run_intersched_test envReserveFails 20 State.init).effects =
      [.reserve_range 2 1, .error_not_set]
        ++ (time_delay envReserveFails (setup_interrupt envReserveFails State.init).state 0).effects
        ++ [.clock_read (nk_sched_get_realtime envReserveFails 11)] ∧
    (run_intersched_test envReserveFails 20 State.init).outcome = .undefined ∧
    (run_intersched_test envReserveFails 20 State.init).effects ≠
      (setup_interrupt envReserveFails State.init).effects :=
  run_intersched_test_reservation_failure envReserveFails 20 State.init rfl rfl rfl

/-- C3 (evaluation): in an invocation entered with `interrupt_counter = 2`
(the value a first run without drops leaves) during which the handler runs
twice, the run returns and the value passed to the final print is
`2 - 4` in `uint64_t`, that is 18446744073709551614; neither it nor its low
32 bits lie in `[0, TRACE_LENGTH]`. -/
theorem handle_intersched_drop_count_second_run (env : Env) (fuel : Nat) (s : State)
    (hc : s.interrupt_counter = 2)
    (hret : (run_intersched_test env fuel s).outcome = .returned) :
    (handle_intersched env fuel 2 s).effects.getLast? =
      some (.print_dropped 18446744073709551614) ∧
    ¬ (18446744073709551614 ≤ TRACE_LENGTH) ∧
    ¬ (18446744073709551614 % 2 ^ 32 ≤ TRACE_LENGTH) := by
  refine ⟨?_, by decide, by decide⟩
  rw [(handle_intersched_report env fuel 2 s hret).1, bump_iterate_counter, hc]
  rfl

theorem handle_intersched_drop_count_second_run_witness :
    (handle_intersched envOk 20 2 afterFirstRun).effects.getLast? =
      some (.print_dropped 18446744073709551614) ∧
    ¬ (18446744073709551614 ≤ TRACE_LENGTH) ∧
    ¬ (18446744073709551614 % 2 ^ 32 ≤ TRACE_LENGTH) :=
  handle_intersched_drop_count_second_run envOk 20 afterFirstRun rfl rfl

/-- C4 (evaluation): in an invocation entered with `interrupt_counter = 1`
during which the handler runs once, the value passed to the final print is
`TRACE_LENGTH - 2 = 0`, computed from the raw counter, while
`TRACE_LENGTH` minus the arrivals of this invocation is 1. -/
theorem handle_intersched_reports_raw_counter (env : Env) (fuel : Nat) (s : State)
    (hc : s.interrupt_counter = 1)
    (hret : (run_intersched_test env fuel s).outcome = .returned) :
    (handle_intersched env fuel 1 s).effects.getLast? = some (.print_dropped 0) ∧
    (handle_intersched env fuel 1 s).state.interrupt_counter - s.interrupt_counter = 1 ∧
    TRACE_LENGTH - 1 = 1 := by
  refine ⟨?_, ?_, rfl⟩
  · rw [(handle_intersched_report env fuel 1 s hret).1, bump_iterate_counter, hc]
    rfl
  · unfold handle_intersched
    simp only [hret]
    rw [bump_iterate_counter, run_intersched_test_counter, hc]
    rfl

theorem handle_intersched_reports_raw_counter_witness :
    (handle_intersched envOk 20 1 afterOneArrival).effects.getLast? =
      some (.print_dropped 0) ∧
    (handle_intersched envOk 20 1 afterOneArrival).state.interrupt_counter -
      afterOneArrival.interrupt_counter = 1 ∧
    TRACE_LENGTH - 1 = 1 :=
  handle_intersched_reports_raw_counter envOk 20 afterOneArrival rfl rfl

end Intersched
